import Mathlib

/-!
Shallow embedding of the CodeReview Agent session manager
(`src/agent.py`, class `CodeReviewAgent`) and proofs about its
history/session management contract.

The external chat-completion collaborator is modelled as a function
`Oracle : List Message → Except String String` (it either returns the
reply text or fails with an opaque error message); the filesystem
collaborator is modelled as `String → Except FsError String`.  Each
Python method is translated to a pure function returning the new
`AgentState` together with the result of the method: `Except.error e`
models a Python exception `e` propagating out of the method, and the
returned state records every mutation performed before the exception
was raised (Python mutations are not rolled back by an exception).
-/

/-- Message role: the "role" field of a history entry. -/
inductive Role where
  | system
  | user
  | assistant
deriving DecidableEq, Repr

/-- One history entry: a role/content pair, as appended to
self.history in the source. -/
structure Message where
  role : Role
  content : String
deriving DecidableEq, Repr

/-- Session state: the mutable fields of `CodeReviewAgent`
(`self.history` and `self.last_code`).  `last_code = none` models
Python `None`. -/
structure AgentState where
  history : List Message
  last_code : Option String
deriving DecidableEq, Repr

/-- The fixed system instruction `SYSTEM_PROMPT` from `src/agent.py`. -/
def SYSTEM_PROMPT : String :=
  "\nYou are **CodeReview Agent**, an expert AI assistant specialised in reviewing code.\n\nYour capabilities:\n- Detect bugs, logic errors, and security vulnerabilities\n- Suggest performance optimisations and best practices\n- Enforce coding standards (PEP8, SOLID, DRY, etc.)\n- Explain complex code in plain English\n- Generate unit-test stubs for reviewed functions\n- Provide refactored alternatives where relevant\n\nResponse format:\n1. 📋 **Summary** – one-line verdict (Pass / Needs Work / Critical Issues)\n2. 🐛 **Issues Found** – numbered list with severity [LOW / MEDIUM / HIGH / CRITICAL]\n3. 💡 **Suggestions** – actionable improvements\n4. ✅ **Refactored Snippet** – improved code (if applicable)\n5. 🧪 **Test Stubs** – basic unit tests (if applicable)\n\nAlways be concise, constructive, and beginner-friendly.\n"

/-- The system message placed at index 0 of the history. -/
def sysMsg : Message := { role := Role.system, content := SYSTEM_PROMPT }

/-- State produced by `CodeReviewAgent.__init__`:
`self.history = [{"role": "system", "content": SYSTEM_PROMPT}]`,
`self.last_code = None`. -/
def initState : AgentState := { history := [sysMsg], last_code := none }

/-- The external chat-completion collaborator
(`self.client.chat.completions.create` applied to the full history plus
the fixed parameters): returns the reply text or fails. -/
abbrev Oracle := List Message → Except String String

/-- Filesystem errors raised by `open`/`read`: Python distinguishes
`FileNotFoundError` from every other `Exception`. -/
inductive FsError where
  | notFound
  | other (msg : String)
deriving DecidableEq, Repr

/-- `CodeReviewAgent.chat`: append the user message, invoke the
collaborator on the full history, append the reply as an assistant
message and return it.  A collaborator failure propagates after the
user message was already appended. -/
def chat (oracle : Oracle) (s : AgentState) (user_message : String) :
    AgentState × Except String String :=
  let h1 := s.history ++ [{ role := Role.user, content := user_message }]
  match oracle h1 with
  | Except.error e => ({ history := h1, last_code := s.last_code }, Except.error e)
  | Except.ok reply =>
      ({ history := h1 ++ [{ role := Role.assistant, content := reply }],
         last_code := s.last_code }, Except.ok reply)

/-- The prompt built by `CodeReviewAgent.review_code`. -/
def reviewPrompt (language code : String) : String :=
  "Please review the following " ++ language ++ " code:\n\n```\n" ++ code ++ "\n```"

/-- `CodeReviewAgent.review_code`: set `last_code` (unconditionally,
before any network delegation), then delegate to `chat` with the
fenced-code prompt.  The Python default for `language` is
"auto-detect"; callers here always pass it explicitly. -/
def review_code (oracle : Oracle) (s : AgentState) (code language : String) :
    AgentState × Except String String :=
  let s1 : AgentState := { s with last_code := some code }
  chat oracle s1 (reviewPrompt language code)

/-- Last path component (the part after the final "/"), as used by
`os.path.splitext` on POSIX. -/
def lastComponent (l : List Char) : List Char :=
  l.foldl (fun acc c => if c == '/' then [] else acc ++ [c]) []

/-- Characters after the last "." of a list. -/
def afterLastDot (l : List Char) : List Char :=
  (l.reverse.takeWhile (fun c => c != '.')).reverse

/-- Model of `os.path.splitext(file_path)[1].lstrip(".")`:
`splitext` takes the suffix from the last "." of the final path
component, unless every character before that "." is itself a "."
(leading dots of a basename never start an extension); `lstrip(".")`
then removes the leading dot.  The net effect is: strip the basename's
leading dots, and if a "." remains, the extension is what follows the
last one, otherwise it is empty. -/
def extOf (file_path : String) : String :=
  let base := lastComponent file_path.toList
  let rest := base.dropWhile (fun c => c == '.')
  if rest.contains '.' then String.mk (afterLastDot rest) else ""

/-- The fixed `lang_map` lookup table from `CodeReviewAgent.review_file`. -/
def langMap : List (String × String) :=
  [("py", "Python"), ("js", "JavaScript"), ("ts", "TypeScript"),
   ("java", "Java"), ("cs", "C#"), ("go", "Go"), ("rs", "Rust"),
   ("cpp", "C++"), ("c", "C"), ("rb", "Ruby"), ("php", "PHP")]

/-- `language = lang_map.get(ext, ext or "unknown")`: map the stripped
extension through the table; an absent extension passes through as-is
and an empty extension becomes "unknown". -/
def languageOf (file_path : String) : String :=
  let ext := extOf file_path
  match List.lookup ext langMap with
  | some l => l
  | none => if ext = "" then "unknown" else ext

/-- `CodeReviewAgent.review_file`: read the file, map the extension to
a language, delegate to `review_code`.  The `try` block wraps the
whole body, so a `FileNotFoundError` from `open` yields the
"File not found" string, and ANY other exception raised inside —
including one propagating out of the delegated `review_code` call —
is caught and turned into the "Error reading file" string. -/
def review_file (oracle : Oracle) (fs : String → Except FsError String)
    (s : AgentState) (file_path : String) : AgentState × Except String String :=
  match fs file_path with
  | Except.error FsError.notFound =>
      (s, Except.ok ("❌ File not found: " ++ file_path))
  | Except.error (FsError.other msg) =>
      (s, Except.ok ("❌ Error reading file: " ++ msg))
  | Except.ok code =>
      let language := languageOf file_path
      let res := review_code oracle s code language
      (res.1,
       match res.2 with
       | Except.ok reply => Except.ok reply
       | Except.error e => Except.ok ("❌ Error reading file: " ++ e))

/-- The fixed follow-up instruction sent by `explain_last` (a constant,
independent of the session state: the reviewed code is not re-sent). -/
def explainPrompt : String :=
  "Can you explain what the last reviewed code does in simple terms?"

/-- The fixed string returned when no code has been reviewed. -/
def noCodeMsg : String :=
  "No code has been reviewed yet. Please review some code first."

/-- `CodeReviewAgent.explain_last`: `if not self.last_code` is Python
truthiness, so both `None` and the empty string take the "no code"
branch; otherwise delegate to `chat` with the fixed follow-up. -/
def explain_last (oracle : Oracle) (s : AgentState) :
    AgentState × Except String String :=
  match s.last_code with
  | none => (s, Except.ok noCodeMsg)
  | some c => if c = "" then (s, Except.ok noCodeMsg) else chat oracle s explainPrompt

/-- `CodeReviewAgent.clear_session`: reset the history to the single
system message and unset `last_code`, regardless of the prior state. -/
def clear_session (_s : AgentState) : AgentState :=
  { history := [sysMsg], last_code := none }

/-- States reachable from the initial state by any sequence of the
session manager's operations, under arbitrary collaborator and
filesystem behaviour at each step. -/
inductive Reachable : AgentState → Prop where
  | init : Reachable initState
  | chat_step (oracle : Oracle) (s : AgentState) (m : String) :
      Reachable s → Reachable (chat oracle s m).1
  | review_code_step (oracle : Oracle) (s : AgentState) (c lang : String) :
      Reachable s → Reachable (review_code oracle s c lang).1
  | review_file_step (oracle : Oracle) (fs : String → Except FsError String)
      (s : AgentState) (p : String) :
      Reachable s → Reachable (review_file oracle fs s p).1
  | explain_step (oracle : Oracle) (s : AgentState) :
      Reachable s → Reachable (explain_last oracle s).1
  | clear_step (s : AgentState) :
      Reachable s → Reachable (clear_session s)

/-- The system-message invariant on a history: index 0 holds exactly
the original system message and no later entry has the system role. -/
def SysInv (h : List Message) : Prop :=
  h.head? = some sysMsg ∧ ∀ m ∈ h.tail, m.role ≠ Role.system

/-- Concrete collaborator that always succeeds with the reply "fine". -/
def oracleOk : Oracle := fun _ => Except.ok "fine"

/-- Concrete collaborator that always fails with error "boom". -/
def oracleFail : Oracle := fun _ => Except.error "boom"

/-- Concrete filesystem in which every path reads as "x=1". -/
def fsOk : String → Except FsError String := fun _ => Except.ok "x=1"

/-- Concrete filesystem in which every path is missing. -/
def fsMissing : String → Except FsError String := fun _ => Except.error FsError.notFound

/-- The user-facing string `review_file` returns for each kind of read
failure. -/
def fsErrorString (p : String) : FsError → String
  | FsError.notFound => "❌ File not found: " ++ p
  | FsError.other msg => "❌ Error reading file: " ++ msg

/-!
Helper lemmas: evaluation equations for `chat` and the shape of the
history after each operation.
-/

/-- When the collaborator succeeds, `chat` appends the user message and
the assistant reply and returns the reply. -/
lemma chat_ok_eq (oracle : Oracle) (s : AgentState) (m r : String)
    (h : oracle (s.history ++ [{ role := Role.user, content := m }]) = Except.ok r) :
    chat oracle s m =
      ({ history := s.history ++ [{ role := Role.user, content := m },
                                  { role := Role.assistant, content := r }],
         last_code := s.last_code }, Except.ok r) := by
  unfold chat
  dsimp only
  rw [h]
  simp [List.append_assoc]

/-- When the collaborator fails, `chat` leaves the just-appended user
message in place and propagates the error. -/
lemma chat_err_eq (oracle : Oracle) (s : AgentState) (m e : String)
    (h : oracle (s.history ++ [{ role := Role.user, content := m }]) = Except.error e) :
    chat oracle s m =
      ({ history := s.history ++ [{ role := Role.user, content := m }],
         last_code := s.last_code }, Except.error e) := by
  unfold chat
  dsimp only
  rw [h]

/-- The `chat` operation never changes `last_code`. -/
lemma chat_fst_last_code (oracle : Oracle) (s : AgentState) (m : String) :
    (chat oracle s m).1.last_code = s.last_code := by
  unfold chat
  dsimp only
  cases oracle (s.history ++ [{ role := Role.user, content := m }]) <;> rfl

/-- The `chat` operation only ever appends non-system messages. -/
lemma chat_fst_history (oracle : Oracle) (s : AgentState) (m : String) :
    ∃ l, (chat oracle s m).1.history = s.history ++ l ∧
      ∀ x ∈ l, x.role ≠ Role.system := by
  cases h : oracle (s.history ++ [{ role := Role.user, content := m }]) with
  | error e =>
      refine ⟨[{ role := Role.user, content := m }], ?_, ?_⟩
      · rw [chat_err_eq oracle s m e h]
      · intro x hx
        simp only [List.mem_singleton] at hx
        subst hx
        simp
  | ok r =>
      refine ⟨[{ role := Role.user, content := m },
               { role := Role.assistant, content := r }], ?_, ?_⟩
      · rw [chat_ok_eq oracle s m r h]
      · intro x hx
        simp only [List.mem_cons, List.mem_singleton, List.not_mem_nil, or_false] at hx
        rcases hx with hx | hx <;> subst hx <;> simp

/-- The `review_code` operation only ever appends non-system messages. -/
lemma review_code_fst_history (oracle : Oracle) (s : AgentState) (c lang : String) :
    ∃ l, (review_code oracle s c lang).1.history = s.history ++ l ∧
      ∀ x ∈ l, x.role ≠ Role.system :=
  chat_fst_history oracle { s with last_code := some c } (reviewPrompt lang c)

/-- The `review_file` operation only ever appends non-system messages. -/
lemma review_file_fst_history (oracle : Oracle) (fs : String → Except FsError String)
    (s : AgentState) (p : String) :
    ∃ l, (review_file oracle fs s p).1.history = s.history ++ l ∧
      ∀ x ∈ l, x.role ≠ Role.system := by
  unfold review_file
  cases h : fs p with
  | error err =>
      cases err <;> exact ⟨[], by simp, by simp⟩
  | ok code =>
      dsimp only
      exact review_code_fst_history oracle s code (languageOf p)

/-- The `explain_last` operation only ever appends non-system messages. -/
lemma explain_last_fst_history (oracle : Oracle) (s : AgentState) :
    ∃ l, (explain_last oracle s).1.history = s.history ++ l ∧
      ∀ x ∈ l, x.role ≠ Role.system := by
  unfold explain_last
  cases h : s.last_code with
  | none => exact ⟨[], by simp, by simp⟩
  | some c =>
      dsimp only
      by_cases hc : c = ""
      · rw [if_pos hc]
        exact ⟨[], by simp, by simp⟩
      · rw [if_neg hc]
        exact chat_fst_history oracle s explainPrompt

/-- Appending non-system messages preserves the system-message
invariant. -/
lemma sysInv_append {h l : List Message} (hh : SysInv h)
    (hl : ∀ x ∈ l, x.role ≠ Role.system) : SysInv (h ++ l) := by
  obtain ⟨h1, h2⟩ := hh
  cases h with
  | nil => simp at h1
  | cons a t =>
      simp only [List.head?_cons, Option.some.injEq] at h1
      subst h1
      refine ⟨by simp, ?_⟩
      intro x hx
      simp only [List.cons_append, List.tail_cons, List.mem_append] at hx
      rcases hx with hx | hx
      · exact h2 x (by simpa using hx)
      · exact hl x hx

/-!
Claim theorems.
-/

/-- Claim C1: for every session state and every message m, a successful
call to chat(m) appends exactly two messages to the history — first a
user message with content m, then an assistant message holding the
reply of the collaborator — so the history grows by exactly 2, the
returned value is the appended assistant content, and the collaborator
is invoked with the full history including the new user message (the
hypothesis constrains the collaborator exactly at that argument, which
fully determines the result of the call). -/
theorem chat_success_spec (oracle : Oracle) (s : AgentState) (m r : String)
    (h : oracle (s.history ++ [{ role := Role.user, content := m }]) = Except.ok r) :
    chat oracle s m =
      ({ history := s.history ++ [{ role := Role.user, content := m },
                                  { role := Role.assistant, content := r }],
         last_code := s.last_code }, Except.ok r) :=
  chat_ok_eq oracle s m r h

/-- Witness for C1 at a concrete state, message and collaborator. -/
theorem chat_success_spec_witness :
    chat oracleOk initState "hello" =
      ({ history := initState.history ++
           [{ role := Role.user, content := "hello" },
            { role := Role.assistant, content := "fine" }],
         last_code := initState.last_code }, Except.ok "fine") :=
  chat_success_spec oracleOk initState "hello" "fine" rfl

/-- Claim C2: in every state reachable from the initial state by any
sequence of the five operations, index 0 of the history is exactly the
original fixed system message and no other entry has the system role
(clear_session recreates the same system message, so the invariant
survives resets as well). -/
theorem reachable_system_invariant (s : AgentState) (h : Reachable s) :
    s.history.head? = some sysMsg ∧ ∀ m ∈ s.history.tail, m.role ≠ Role.system := by
  have inv : SysInv s.history := by
    induction h with
    | init => exact ⟨rfl, by simp [initState]⟩
    | chat_step oracle s m _ ih =>
        obtain ⟨l, hl, hr⟩ := chat_fst_history oracle s m
        rw [hl]
        exact sysInv_append ih hr
    | review_code_step oracle s c lang _ ih =>
        obtain ⟨l, hl, hr⟩ := review_code_fst_history oracle s c lang
        rw [hl]
        exact sysInv_append ih hr
    | review_file_step oracle fs s p _ ih =>
        obtain ⟨l, hl, hr⟩ := review_file_fst_history oracle fs s p
        rw [hl]
        exact sysInv_append ih hr
    | explain_step oracle s _ ih =>
        obtain ⟨l, hl, hr⟩ := explain_last_fst_history oracle s
        rw [hl]
        exact sysInv_append ih hr
    | clear_step s _ _ =>
        exact ⟨rfl, by simp [clear_session]⟩
  exact inv

/-- Witness for C2 at the initial state (reachable by the empty
sequence of operations). -/
theorem reachable_system_invariant_witness :
    initState.history.head? = some sysMsg ∧
      ∀ m ∈ initState.history.tail, m.role ≠ Role.system :=
  reachable_system_invariant initState Reachable.init

/-- Claim C3, counterexample: the claim quantifies over every state in
which last_code is set, but the source checks Python truthiness
(if not self.last_code), so in the state with last_code set to the
empty string — reachable, e.g. via review_code with empty code —
explain_last returns the no-code string, performs no chat call and
leaves the history length unchanged instead of increasing it by 2. -/
theorem explain_last_empty_code_cex :
    ({ history := [sysMsg], last_code := some "" } : AgentState).last_code = some "" ∧
    explain_last oracleOk { history := [sysMsg], last_code := some "" } =
      ({ history := [sysMsg], last_code := some "" }, Except.ok noCodeMsg) ∧
    (explain_last oracleOk { history := [sysMsg], last_code := some "" }).1.history.length =
      ({ history := [sysMsg], last_code := some "" } : AgentState).history.length :=
  ⟨rfl, rfl, rfl⟩

/-- Claim C3 (amended): for every state in which last_code is set to a
NON-EMPTY string, explain_last delegates to exactly one chat call with
the fixed follow-up instruction explainPrompt — a constant independent
of last_code, so the reviewed code is not re-sent — and on success the
history grows by exactly the user/assistant pair, i.e. by 2. -/
theorem explain_last_set_spec (oracle : Oracle) (s : AgentState) (c r : String)
    (hset : s.last_code = some c) (hne : c ≠ "")
    (hok : oracle (s.history ++ [{ role := Role.user, content := explainPrompt }]) =
      Except.ok r) :
    explain_last oracle s = chat oracle s explainPrompt ∧
    (explain_last oracle s).1.history =
      s.history ++ [{ role := Role.user, content := explainPrompt },
                    { role := Role.assistant, content := r }] ∧
    (explain_last oracle s).1.history.length = s.history.length + 2 := by
  have hd : explain_last oracle s = chat oracle s explainPrompt := by
    unfold explain_last
    rw [hset]
    exact if_neg hne
  have hh : (explain_last oracle s).1.history =
      s.history ++ [{ role := Role.user, content := explainPrompt },
                    { role := Role.assistant, content := r }] := by
    rw [hd, chat_ok_eq oracle s explainPrompt r hok]
  refine ⟨hd, hh, ?_⟩
  rw [hh]
  simp

/-- Witness for the amended C3 at a concrete state with non-empty
last_code. -/
theorem explain_last_set_spec_witness :
    explain_last oracleOk { history := [sysMsg], last_code := some "x = 1/0" } =
      chat oracleOk { history := [sysMsg], last_code := some "x = 1/0" } explainPrompt ∧
    (explain_last oracleOk { history := [sysMsg], last_code := some "x = 1/0" }).1.history =
      [sysMsg] ++ [{ role := Role.user, content := explainPrompt },
                   { role := Role.assistant, content := "fine" }] ∧
    (explain_last oracleOk
        { history := [sysMsg], last_code := some "x = 1/0" }).1.history.length =
      ([sysMsg] : List Message).length + 2 :=
  explain_last_set_spec oracleOk { history := [sysMsg], last_code := some "x = 1/0" }
    "x = 1/0" "fine" rfl (by decide) rfl

/-- Claim C4, counterexample: a collaborator failure is NOT always
propagated — review_file wraps its whole body, including the delegated
review_code call, in an exception handler, so the very failure that
review_code propagates (first conjunct) is converted by review_file
into a returned error string (second conjunct). -/
theorem review_file_catches_collab_failure_cex :
    (review_code oracleFail initState "x=1" "Python").2 = Except.error "boom" ∧
    (review_file oracleFail fsOk initState "a.py").2 =
      Except.ok "❌ Error reading file: boom" :=
  ⟨rfl, rfl⟩

/-- Claim C4 (amended): chat, review_code and explain_last (the latter
with reviewable last_code) propagate a collaborator failure to the
caller unchanged, with a single attempt and no retry; review_file,
however, catches the failure of its delegated review_code call and
converts it into the returned Error-reading-file string. -/
theorem collab_failure_propagation_spec (e : String) (oracle : Oracle)
    (hfail : ∀ h, oracle h = Except.error e)
    (fs : String → Except FsError String) (s : AgentState)
    (m c lang c0 p code : String) :
    (chat oracle s m).2 = Except.error e ∧
    (review_code oracle s c lang).2 = Except.error e ∧
    (s.last_code = some c0 → c0 ≠ "" → (explain_last oracle s).2 = Except.error e) ∧
    (fs p = Except.ok code →
      (review_file oracle fs s p).2 = Except.ok ("❌ Error reading file: " ++ e)) := by
  have hchat : ∀ (s' : AgentState) (m' : String),
      (chat oracle s' m').2 = Except.error e := by
    intro s' m'
    rw [chat_err_eq oracle s' m' e (hfail _)]
  refine ⟨hchat s m, hchat _ _, ?_, ?_⟩
  · intro hset hne
    unfold explain_last
    rw [hset]
    dsimp only
    rw [if_neg hne]
    exact hchat s explainPrompt
  · intro hread
    unfold review_file
    rw [hread]
    dsimp only
    rw [show (review_code oracle s code (languageOf p)).2 = Except.error e from hchat _ _]

/-- Witness for the amended C4 at a concrete always-failing
collaborator and a concrete state, message, code and readable file. -/
theorem collab_failure_propagation_spec_witness :
    (chat oracleFail { history := [sysMsg], last_code := some "x = 1/0" } "hi").2 =
      Except.error "boom" ∧
    (review_code oracleFail { history := [sysMsg], last_code := some "x = 1/0" }
        "y=2" "Python").2 = Except.error "boom" ∧
    (explain_last oracleFail { history := [sysMsg], last_code := some "x = 1/0" }).2 =
      Except.error "boom" ∧
    (review_file oracleFail fsOk { history := [sysMsg], last_code := some "x = 1/0" }
        "c.py").2 = Except.ok ("❌ Error reading file: " ++ "boom") := by
  have h := collab_failure_propagation_spec "boom" oracleFail (fun _ => rfl) fsOk
    { history := [sysMsg], last_code := some "x = 1/0" } "hi" "y=2" "Python" "x = 1/0"
    "c.py" "x=1"
  exact ⟨h.1, h.2.1, h.2.2.1 rfl (by decide), h.2.2.2 rfl⟩

/-- Claim C5: for every path whose read fails, review_file returns the
corresponding user-facing error string inside Except.ok (it does not
raise), the state is exactly the prior state, and the result is
independent of the collaborator, which is therefore never invoked. -/
theorem review_file_missing_spec (oracle oracle2 : Oracle)
    (fs : String → Except FsError String) (s : AgentState) (p : String)
    (err : FsError) (h : fs p = Except.error err) :
    review_file oracle fs s p = (s, Except.ok (fsErrorString p err)) ∧
    review_file oracle fs s p = review_file oracle2 fs s p := by
  cases err with
  | notFound =>
      unfold review_file
      rw [h]
      exact ⟨rfl, rfl⟩
  | other msg =>
      unfold review_file
      rw [h]
      exact ⟨rfl, rfl⟩

/-- Witness for C5 at a concrete nonexistent path. -/
theorem review_file_missing_spec_witness :
    review_file oracleOk fsMissing initState "/nonexistent/path/file.py" =
      (initState, Except.ok "❌ File not found: /nonexistent/path/file.py") ∧
    review_file oracleOk fsMissing initState "/nonexistent/path/file.py" =
      review_file oracleFail fsMissing initState "/nonexistent/path/file.py" :=
  review_file_missing_spec oracleOk oracleFail fsMissing initState
    "/nonexistent/path/file.py" FsError.notFound rfl

/-- Claim C6, counterexample: for a readable file with a failing
collaborator, review_file returns an error string while review_code
propagates the failure, so the two results are not equal — the claimed
unconditional equivalence fails. -/
theorem review_file_not_eq_review_code_cex :
    (review_file oracleFail fsOk initState "b.py").2 =
      Except.ok "❌ Error reading file: boom" ∧
    (review_code oracleFail initState "x=1" (languageOf "b.py")).2 =
      Except.error "boom" ∧
    review_file oracleFail fsOk initState "b.py" ≠
      review_code oracleFail initState "x=1" (languageOf "b.py") := by
  refine ⟨rfl, rfl, fun h => ?_⟩
  have h2 := congrArg Prod.snd h
  exact Except.noConfusion h2

/-- Claim C6 (amended): for every readable file at path p with contents
code, PROVIDED the delegated collaborator call succeeds, review_file
returns the same result and produces the same state as review_code
applied to the contents and the language derived from the extension of
p; the language derivation uses the fixed lookup table, passes an
absent extension through as the raw extension string, and maps an
empty extension to unknown. -/
theorem review_file_refines_review_code (oracle : Oracle)
    (fs : String → Except FsError String) (s : AgentState) (p code r : String)
    (hread : fs p = Except.ok code)
    (hok : (review_code oracle s code (languageOf p)).2 = Except.ok r) :
    review_file oracle fs s p = review_code oracle s code (languageOf p) ∧
    (∀ l, List.lookup (extOf p) langMap = some l → languageOf p = l) ∧
    (List.lookup (extOf p) langMap = none → extOf p ≠ "" → languageOf p = extOf p) ∧
    (extOf p = "" → languageOf p = "unknown") := by
  refine ⟨?_, ?_, ?_, ?_⟩
  · unfold review_file
    rw [hread]
    dsimp only
    rw [hok]
    dsimp only
    rw [← hok]
  · intro l hl
    unfold languageOf
    dsimp only
    rw [hl]
  · intro hn hne
    unfold languageOf
    dsimp only
    rw [hn]
    exact if_neg hne
  · intro hempty
    unfold languageOf
    dsimp only
    rw [hempty]
    rfl

/-- Witness for the amended C6 at a concrete readable Python file and
succeeding collaborator. -/
theorem review_file_refines_review_code_witness :
    review_file oracleOk fsOk initState "d.py" =
      review_code oracleOk initState "x=1" (languageOf "d.py") ∧
    languageOf "d.py" = "Python" :=
  ⟨(review_file_refines_review_code oracleOk fsOk initState "d.py" "x=1" "fine" rfl rfl).1,
   rfl⟩

/-- Claim C7: review_code sets last_code to exactly the given code for
every collaborator behaviour and every language argument — in
particular also when the delegated chat call fails, since the mutation
happens before the delegation — and when the delegated call succeeds
the history grows by exactly 2. -/
theorem review_code_spec (oracle : Oracle) (s : AgentState) (c lang r : String) :
    (review_code oracle s c lang).1.last_code = some c ∧
    ((review_code oracle s c lang).2 = Except.ok r →
      (review_code oracle s c lang).1.history.length = s.history.length + 2) := by
  constructor
  · unfold review_code
    exact chat_fst_last_code oracle { s with last_code := some c } (reviewPrompt lang c)
  · intro h
    unfold review_code at h ⊢
    cases hc : oracle ({ s with last_code := some c }.history ++
        [{ role := Role.user, content := reviewPrompt lang c }]) with
    | error e =>
        rw [chat_err_eq _ _ _ _ hc] at h
        cases h
    | ok reply =>
        rw [chat_ok_eq _ _ _ _ hc]
        simp

/-- Witness for C7 at a concrete state, code and collaborator. -/
theorem review_code_spec_witness :
    (review_code oracleOk initState "x = 1/0" "auto-detect").1.last_code = some "x = 1/0" ∧
    (review_code oracleOk initState "x = 1/0" "auto-detect").1.history.length =
      initState.history.length + 2 :=
  ⟨(review_code_spec oracleOk initState "x = 1/0" "auto-detect" "fine").1,
   (review_code_spec oracleOk initState "x = 1/0" "auto-detect" "fine").2 rfl⟩

/-- Claim C8: clear_session maps every prior state to exactly the
initial state — a history holding only the original system message and
an unset last_code. -/
theorem clear_session_spec (s : AgentState) :
    clear_session s = initState ∧
    (clear_session s).history = [sysMsg] ∧
    (clear_session s).last_code = none :=
  ⟨rfl, rfl, rfl⟩

/-- Claim C9: when the collaborator fails, chat leaves the history
equal to the prior history plus exactly one trailing user message with
the given content, appends no assistant message, keeps last_code, and
propagates the error. -/
theorem chat_failure_spec (oracle : Oracle) (s : AgentState) (m e : String)
    (h : oracle (s.history ++ [{ role := Role.user, content := m }]) = Except.error e) :
    chat oracle s m =
      ({ history := s.history ++ [{ role := Role.user, content := m }],
         last_code := s.last_code }, Except.error e) :=
  chat_err_eq oracle s m e h

/-- Witness for C9 at a concrete state, message and failing
collaborator. -/
theorem chat_failure_spec_witness :
    chat oracleFail initState "hello" =
      ({ history := initState.history ++ [{ role := Role.user, content := "hello" }],
         last_code := initState.last_code }, Except.error "boom") :=
  chat_failure_spec oracleFail initState "hello" "boom" rfl

/-- Claim C10: in every state with last_code unset, explain_last
returns the fixed no-code-reviewed string, leaves the state — history
and last_code — untouched, and never invokes the collaborator (its
result is independent of the collaborator). -/
theorem explain_last_unset_spec (oracle oracle2 : Oracle) (s : AgentState)
    (h : s.last_code = none) :
    explain_last oracle s = (s, Except.ok noCodeMsg) ∧
    explain_last oracle s = explain_last oracle2 s := by
  unfold explain_last
  rw [h]
  exact ⟨rfl, rfl⟩

/-- Witness for C10 at the initial state. -/
theorem explain_last_unset_spec_witness :
    explain_last oracleOk initState = (initState, Except.ok noCodeMsg) ∧
    explain_last oracleOk initState = explain_last oracleFail initState :=
  explain_last_unset_spec oracleOk oracleFail initState rfl
